import Mathlib

/-!
# Verification of the shipping-oracle core (tx3-lang/shipping-oracle)

A shallow embedding, in Lean 4, of the on-chain record decoder, the chain
reader, the close-shipment parameter builder and the transaction-signing
pipeline of `src/backend/src/blockchain.rs`, together with theorems settling
the frozen claims about that code.

Modelling conventions:
* Rust byte strings (`Vec<u8>`, `&[u8]`) are `List Nat` with each element a
  byte value; machine integers that can overflow do not occur on the paths
  modelled here (`u32` output indexes and `u64` timestamps are used only as
  opaque values rendered to text), so they are plain `Nat`.
* Fallible Rust code returning `Result`/`Option` becomes `Except`/`Option`;
  a Rust `panic!`/`expect` is a distinct, explicit outcome of the model
  (`SignResult.panicked`), never an implicit one.
* Network I/O is embedded as an explicit "world" argument describing the
  response each HTTP query would receive; the ambient clock of
  `chrono::Utc::now()` is embedded as an explicit `now` argument.
* The CBOR layer (the `minicbor` codec used by pallas) is embedded by a
  fuel-indexed parser over byte lists that reports how many bytes each item
  consumed; fuel is always instantiated large enough that it cannot run out
  before the input does.
-/

namespace ShippingOracle

/-! ## Hex encoding and decoding (the Rust `hex` crate)

`hex::decode` fails unless the input has even length and every character is
a hex digit; `hex::encode` produces lowercase digits. -/

def hexDigitVal (c : Char) : Option Nat :=
  if ('0' ≤ c ∧ c ≤ '9') then some (c.toNat - '0'.toNat)
  else if ('a' ≤ c ∧ c ≤ 'f') then some (c.toNat - 'a'.toNat + 10)
  else if ('A' ≤ c ∧ c ≤ 'F') then some (c.toNat - 'A'.toNat + 10)
  else none

def hexPairsToBytes : List Char → Option (List Nat)
  | [] => some []
  | [_] => none
  | c1 :: c2 :: rest => do
    let h ← hexDigitVal c1
    let l ← hexDigitVal c2
    let tail ← hexPairsToBytes rest
    pure ((h * 16 + l) :: tail)

/-- Model of `hex::decode`: `none` on odd length or any non-hex character. -/
def hexDecode (s : String) : Option (List Nat) :=
  hexPairsToBytes s.toList

/-- Model of `hex::decode(..).unwrap_or_default()`: invalid hex degrades to
the empty byte string. -/
def hexDecodeOrEmpty (s : String) : List Nat :=
  (hexDecode s).getD []

def hexDigitChar (n : Nat) : Char :=
  if n < 10 then Char.ofNat ('0'.toNat + n) else Char.ofNat ('a'.toNat + (n - 10))

/-- Model of `hex::encode` on raw bytes: lowercase hex, two digits per byte. -/
def hexEncodeBytes (bs : List Nat) : String :=
  String.mk (bs.flatMap (fun b => [hexDigitChar (b / 16), hexDigitChar (b % 16)]))

/-! ## UTF-8 (Rust `String::from_utf8`)

`String::from_utf8(bytes)` succeeds exactly on RFC 3629 well-formed UTF-8;
the Rust code under verification uses `.unwrap_or_default()`, degrading
malformed UTF-8 to the empty string. -/

def isCont (b : Nat) : Bool := 128 ≤ b ∧ b < 192

def utf8Chars : List Nat → Option (List Char)
  | [] => some []
  | b :: rest =>
    if b < 128 then do
      let tail ← utf8Chars rest
      pure (Char.ofNat b :: tail)
    else if 194 ≤ b ∧ b ≤ 223 then
      match rest with
      | b1 :: rest1 =>
        if isCont b1 then do
          let tail ← utf8Chars rest1
          pure (Char.ofNat ((b - 192) * 64 + (b1 - 128)) :: tail)
        else none
      | _ => none
    else if 224 ≤ b ∧ b ≤ 239 then
      match rest with
      | b1 :: b2 :: rest2 =>
        let lo1 := if b = 224 then 160 else 128
        let hi1 := if b = 237 then 159 else 191
        if (lo1 ≤ b1 ∧ b1 ≤ hi1) ∧ isCont b2 then do
          let tail ← utf8Chars rest2
          pure (Char.ofNat ((b - 224) * 4096 + (b1 - 128) * 64 + (b2 - 128)) :: tail)
        else none
      | _ => none
    else if 240 ≤ b ∧ b ≤ 244 then
      match rest with
      | b1 :: b2 :: b3 :: rest3 =>
        let lo1 := if b = 240 then 144 else 128
        let hi1 := if b = 244 then 143 else 191
        if (lo1 ≤ b1 ∧ b1 ≤ hi1) ∧ isCont b2 ∧ isCont b3 then do
          let tail ← utf8Chars rest3
          pure (Char.ofNat ((b - 240) * 262144 + (b1 - 128) * 4096 + (b2 - 128) * 64 + (b3 - 128)) :: tail)
        else none
      | _ => none
    else none

/-- Model of `String::from_utf8(v.to_vec()).unwrap_or_default()`. -/
def utf8OrEmpty (bs : List Nat) : String :=
  match utf8Chars bs with
  | some cs => String.mk cs
  | none => ""

/-- UTF-8 encoding of a character (total on the scalar values produced by
Lean `Char`s); used to model `hex::encode(status.to_string())`, which hex
encodes the UTF-8 bytes of the status text. -/
def charUtf8 (c : Char) : List Nat :=
  let n := c.toNat
  if n < 128 then [n]
  else if n < 2048 then [192 + n / 64, 128 + n % 64]
  else if n < 65536 then [224 + n / 4096, 128 + (n / 64) % 64, 128 + n % 64]
  else [240 + n / 262144, 128 + (n / 4096) % 64, 128 + (n / 64) % 64, 128 + n % 64]

def utf8Encode (s : String) : List Nat :=
  s.toList.flatMap charUtf8

/-- Model of Rust `hex::encode(s)` for a text `s`. -/
def hexEncodeString (s : String) : String :=
  hexEncodeBytes (utf8Encode s)

/-! ## CBOR data items (the `minicbor` wire format used by pallas)

A parsed CBOR data item. Definite and indefinite-length encodings are kept
apart because the decoders modelled below treat them the way `minicbor` does.
Floats are kept as raw payload bytes (never interpreted by the code under
verification). -/

inductive RawCbor where
  | uint (n : Nat)
  | nint (n : Nat)
  | bytes (bs : List Nat)
  | bytesIndef (chunks : List (List Nat))
  | text (bs : List Nat)
  | textIndef (chunks : List (List Nat))
  | array (items : List RawCbor)
  | arrayIndef (items : List RawCbor)
  | map (pairs : List (RawCbor × RawCbor))
  | mapIndef (pairs : List (RawCbor × RawCbor))
  | tag (t : Nat) (item : RawCbor)
  | simple (n : Nat)
  | float (payload : List Nat)

/-- Read the argument of a CBOR head: `ai` is the low five bits of the
initial byte, `bs` the bytes after it. Returns the argument value and how
many additional bytes it occupied; `none` on the reserved values 28-30,
on the indefinite marker 31 (callers handle 31 themselves), and on
truncated input. -/
def readArg (ai : Nat) (bs : List Nat) : Option (Nat × Nat) :=
  if ai < 24 then some (ai, 0)
  else if ai = 24 then
    match bs with
    | b :: _ => some (b, 1)
    | [] => none
  else if ai = 25 then
    match bs with
    | b1 :: b2 :: _ => some (b1 * 256 + b2, 2)
    | _ => none
  else if ai = 26 then
    match bs with
    | b1 :: b2 :: b3 :: b4 :: _ => some (((b1 * 256 + b2) * 256 + b3) * 256 + b4, 4)
    | _ => none
  else if ai = 27 then
    match bs with
    | b1 :: b2 :: b3 :: b4 :: b5 :: b6 :: b7 :: b8 :: _ =>
      some ((((((((b1 * 256 + b2) * 256 + b3) * 256 + b4) * 256 + b5) * 256 + b6) * 256 + b7) * 256 + b8), 8)
    | _ => none
  else none

mutual

/-- Parse one CBOR data item from the front of `bs`, returning the item and
the number of bytes it consumed. Fuel-indexed; fuel is instantiated by
`cborFuel` below, which over-approximates the recursion depth. -/
def parseItem : Nat → List Nat → Option (RawCbor × Nat)
  | 0, _ => none
  | _ + 1, [] => none
  | fuel + 1, b :: r =>
    let major := b / 32
    let ai := b % 32
    if major = 0 then do
      let (n, k) ← readArg ai r
      pure (.uint n, 1 + k)
    else if major = 1 then do
      let (n, k) ← readArg ai r
      pure (.nint n, 1 + k)
    else if major = 2 then
      if ai = 31 then do
        let (chunks, k) ← parseChunks fuel 2 r
        pure (.bytesIndef chunks, 1 + k)
      else do
        let (n, k) ← readArg ai r
        let r2 := r.drop k
        if r2.length < n then none
        else pure (.bytes (r2.take n), 1 + k + n)
    else if major = 3 then
      if ai = 31 then do
        let (chunks, k) ← parseChunks fuel 3 r
        pure (.textIndef chunks, 1 + k)
      else do
        let (n, k) ← readArg ai r
        let r2 := r.drop k
        if r2.length < n then none
        else pure (.text (r2.take n), 1 + k + n)
    else if major = 4 then
      if ai = 31 then do
        let (items, k) ← parseUntilBreak fuel r
        pure (.arrayIndef items, 1 + k)
      else do
        let (n, k) ← readArg ai r
        let (items, k2) ← parseMany fuel n (r.drop k)
        pure (.array items, 1 + k + k2)
    else if major = 5 then
      if ai = 31 then do
        let (ps, k) ← parsePairsUntilBreak fuel r
        pure (.mapIndef ps, 1 + k)
      else do
        let (n, k) ← readArg ai r
        let (ps, k2) ← parsePairs fuel n (r.drop k)
        pure (.map ps, 1 + k + k2)
    else if major = 6 then do
      let (t, k) ← readArg ai r
      let (v, k2) ← parseItem fuel (r.drop k)
      pure (.tag t v, 1 + k + k2)
    else
      if ai < 24 then pure (.simple ai, 1)
      else if ai = 24 then
        match r with
        | b2 :: _ => pure (.simple b2, 2)
        | [] => none
      else if ai = 25 then
        if r.length < 2 then none else pure (.float (r.take 2), 3)
      else if ai = 26 then
        if r.length < 4 then none else pure (.float (r.take 4), 5)
      else if ai = 27 then
        if r.length < 8 then none else pure (.float (r.take 8), 9)
      else none

/-- Parse exactly `n` consecutive CBOR items (a definite-length sequence). -/
def parseMany : Nat → Nat → List Nat → Option (List RawCbor × Nat)
  | 0, _, _ => none
  | _ + 1, 0, _ => some ([], 0)
  | fuel + 1, n + 1, bs => do
    let (v, k) ← parseItem fuel bs
    let (vs, k2) ← parseMany fuel n (bs.drop k)
    pure (v :: vs, k + k2)

/-- Parse CBOR items up to (and including) a break byte `0xff`. -/
def parseUntilBreak : Nat → List Nat → Option (List RawCbor × Nat)
  | 0, _ => none
  | _ + 1, 255 :: _ => some ([], 1)
  | fuel + 1, bs => do
    let (v, k) ← parseItem fuel bs
    let (vs, k2) ← parseUntilBreak fuel (bs.drop k)
    pure (v :: vs, k + k2)

/-- Parse exactly `n` key-value pairs (a definite-length map body). -/
def parsePairs : Nat → Nat → List Nat → Option (List (RawCbor × RawCbor) × Nat)
  | 0, _, _ => none
  | _ + 1, 0, _ => some ([], 0)
  | fuel + 1, n + 1, bs => do
    let (kv, k1) ← parseItem fuel bs
    let (vv, k2) ← parseItem fuel (bs.drop k1)
    let (ps, k3) ← parsePairs fuel n (bs.drop (k1 + k2))
    pure ((kv, vv) :: ps, k1 + k2 + k3)

/-- Parse key-value pairs up to (and including) a break byte `0xff`. -/
def parsePairsUntilBreak : Nat → List Nat → Option (List (RawCbor × RawCbor) × Nat)
  | 0, _ => none
  | _ + 1, 255 :: _ => some ([], 1)
  | fuel + 1, bs => do
    let (kv, k1) ← parseItem fuel bs
    let (vv, k2) ← parseItem fuel (bs.drop k1)
    let (ps, k3) ← parsePairsUntilBreak fuel (bs.drop (k1 + k2))
    pure ((kv, vv) :: ps, k1 + k2 + k3)

/-- Parse the chunks of an indefinite-length byte/text string: each chunk
must be a definite-length string of the same major type, up to a break. -/
def parseChunks : Nat → Nat → List Nat → Option (List (List Nat) × Nat)
  | 0, _, _ => none
  | _ + 1, _, [] => none
  | _ + 1, _, 255 :: _ => some ([], 1)
  | fuel + 1, major, b :: r =>
    let m := b / 32
    let ai := b % 32
    if m = major ∧ ai ≠ 31 then
      match readArg ai r with
      | none => none
      | some (n, k) =>
        let r2 := r.drop k
        if r2.length < n then none
        else do
          let (chunks, k2) ← parseChunks fuel major (r2.drop n)
          pure (r2.take n :: chunks, 1 + k + n + k2)
    else none

end

/-- Fuel that can never run out before the input does (each unit of fuel
spent consumes at least one input byte across any chain of recursive
calls, with a small constant slack per nesting level). -/
def cborFuel (bs : List Nat) : Nat := 4 * bs.length + 16

/-! ## Plutus data (pallas `primitives::PlutusData`)

`PlutusData` and its `minicbor` decoder, modelled from pallas: a data item
is a constructor (tag 121-127, 1280-1400, or the general form tag 102), a
map, an integer (immediate, or a tag-2/tag-3 big integer over bytes), a
byte string (possibly chunked; chunks are concatenated), or an array.
Text, floats, simple values and any other tag are rejected. -/

inductive PlutusData where
  | Constr (tag : Nat) (anyConstructor : Option Nat) (fields : List PlutusData)
  | MapD (pairs : List (PlutusData × PlutusData))
  | BigIntD (value : Int)
  | BigUInt (bytes : List Nat)
  | BigNInt (bytes : List Nat)
  | BoundedBytes (bytes : List Nat)
  | ArrayD (items : List PlutusData)

mutual

def plutusFromRaw : RawCbor → Option PlutusData
  | .uint n => some (.BigIntD (Int.ofNat n))
  | .nint n => some (.BigIntD (-1 - Int.ofNat n))
  | .bytes bs => some (.BoundedBytes bs)
  | .bytesIndef chunks => some (.BoundedBytes chunks.flatten)
  | .text _ => none
  | .textIndef _ => none
  | .array items => (plutusListFromRaw items).map .ArrayD
  | .arrayIndef items => (plutusListFromRaw items).map .ArrayD
  | .map ps => (plutusPairsFromRaw ps).map .MapD
  | .mapIndef ps => (plutusPairsFromRaw ps).map .MapD
  | .tag t v =>
    if (121 ≤ t ∧ t ≤ 127) ∨ (1280 ≤ t ∧ t ≤ 1400) then
      match v with
      | .array items => (plutusListFromRaw items).map (.Constr t none)
      | .arrayIndef items => (plutusListFromRaw items).map (.Constr t none)
      | _ => none
    else if t = 102 then
      -- general constructor form: tag 102 over `[alternative, fields]`
      match v with
      | .array [.uint n, .array items] => (plutusListFromRaw items).map (.Constr 102 (some n))
      | .array [.uint n, .arrayIndef items] => (plutusListFromRaw items).map (.Constr 102 (some n))
      | .arrayIndef [.uint n, .array items] => (plutusListFromRaw items).map (.Constr 102 (some n))
      | .arrayIndef [.uint n, .arrayIndef items] => (plutusListFromRaw items).map (.Constr 102 (some n))
      | _ => none
    else if t = 2 then
      match v with
      | .bytes bs => some (.BigUInt bs)
      | .bytesIndef chunks => some (.BigUInt chunks.flatten)
      | _ => none
    else if t = 3 then
      match v with
      | .bytes bs => some (.BigNInt bs)
      | .bytesIndef chunks => some (.BigNInt chunks.flatten)
      | _ => none
    else none
  | .simple _ => none
  | .float _ => none

def plutusListFromRaw : List RawCbor → Option (List PlutusData)
  | [] => some []
  | v :: vs => do
    let d ← plutusFromRaw v
    let ds ← plutusListFromRaw vs
    pure (d :: ds)

def plutusPairsFromRaw : List (RawCbor × RawCbor) → Option (List (PlutusData × PlutusData))
  | [] => some []
  | (k, v) :: ps => do
    let dk ← plutusFromRaw k
    let dv ← plutusFromRaw v
    let ds ← plutusPairsFromRaw ps
    pure ((dk, dv) :: ds)

end

/-- Model of `minicbor::decode::<PlutusData>(&bytes)`: parse one CBOR item
from the front (trailing bytes are ignored, as `minicbor::decode` does) and
interpret it as Plutus data. -/
def decodePlutusData (bs : List Nat) : Option PlutusData := do
  let (v, _) ← parseItem (cborFuel bs) bs
  plutusFromRaw v

/-! ## Ledger addresses (pallas `ledger::addresses::Address`)

Model of `Address::from_bytes`, which dispatches on the high nibble of the
header byte: 0-7 are Shelley addresses (types 0-3 carry two 28-byte
hashes, types 4-5 a 28-byte hash plus a chain pointer of three
variable-length integers, types 6-7 a single 28-byte hash), 8 is a Byron
address (a CBOR array `[tag 24 bytes, crc]`), 14-15 are stake addresses
(one 28-byte hash), and anything else is invalid. -/

inductive Address where
  | shelley (header : Nat) (payload : List Nat)
  | stake (header : Nat) (payload : List Nat)
  | byron (raw : List Nat)
deriving DecidableEq

/-- One variable-length unsigned integer (7 value bits per byte, high bit
set on all but the last byte); returns the number of bytes consumed. -/
def varUIntLen : Nat → List Nat → Option Nat
  | 0, _ => none
  | _ + 1, [] => none
  | fuel + 1, b :: r =>
    if b < 128 then some 1 else (varUIntLen fuel r).map (· + 1)

/-- A Shelley chain pointer: three variable-length unsigned integers. -/
def pointerParses (bs : List Nat) : Bool :=
  (do
    let k1 ← varUIntLen (bs.length + 1) bs
    let k2 ← varUIntLen (bs.length + 1) (bs.drop k1)
    let _ ← varUIntLen (bs.length + 1) (bs.drop (k1 + k2))
    pure ()).isSome

/-- A Byron address payload: a CBOR array `[tag 24 (bytes), uint]`. -/
def byronParses (bs : List Nat) : Bool :=
  match parseItem (cborFuel bs) bs with
  | some (.array [.tag 24 (.bytes _), .uint _], _) => true
  | some (.arrayIndef [.tag 24 (.bytes _), .uint _], _) => true
  | _ => false

/-- Model of pallas `Address::from_bytes`. -/
def addressFromBytes (bs : List Nat) : Option Address :=
  match bs with
  | [] => none
  | header :: payload =>
    let t := header / 16
    if t ≤ 3 then
      if 56 ≤ payload.length then some (.shelley header payload) else none
    else if t ≤ 5 then
      if 28 ≤ payload.length ∧ pointerParses (payload.drop 28) then
        some (.shelley header payload)
      else none
    else if t ≤ 7 then
      if 28 ≤ payload.length then some (.shelley header payload) else none
    else if t = 8 then
      if byronParses bs then some (.byron bs) else none
    else if t = 14 ∨ t = 15 then
      if 28 ≤ payload.length then some (.stake header payload) else none
    else none

/-! ## The data model (`src/backend/src/models.rs`) -/

/-- On-chain tracking datum structure (`models.rs`). -/
structure TrackingDatum where
  carrier : String
  tracking_number : String
  outbox_address : Address
deriving DecidableEq

/-- Represents a tracking UTxO (`models.rs`). -/
structure TrackingUTxO where
  tx_hash : String
  tx_index : Nat
  datum : TrackingDatum
deriving DecidableEq

/-! ## The datum decoder (`TrackingDatum::from_cbor`, blockchain.rs 47-88) -/

/-- Model of `TrackingDatum::from_cbor`: hex-decode the input (invalid hex
degrades to empty bytes via `unwrap_or_default`), decode it as Plutus
data, and read constructor fields 0, 1, 2 positionally: fields 0 and 1
must be byte strings (malformed UTF-8 degrading to the empty string), and
field 2 must be a byte string parsing as an address. If any of the three
is absent, the result is `none`. -/
def TrackingDatum.from_cbor (datum_bytes : String) : Option TrackingDatum :=
  match decodePlutusData (hexDecodeOrEmpty datum_bytes) with
  | some (.Constr _ _ fields) =>
    let carrier : Option String :=
      match fields[0]? with
      | some (PlutusData.BoundedBytes carrier_bytes) => some (utf8OrEmpty carrier_bytes)
      | _ => none
    let tracking_number : Option String :=
      match fields[1]? with
      | some (PlutusData.BoundedBytes tracking_number_bytes) => some (utf8OrEmpty tracking_number_bytes)
      | _ => none
    let outbox_address : Option Address :=
      match fields[2]? with
      | some (PlutusData.BoundedBytes outbox_address_bytes) => addressFromBytes outbox_address_bytes
      | _ => none
    match carrier, tracking_number, outbox_address with
    | some c, some t, some a => some ⟨c, t, a⟩
    | _, _, _ => none
  | _ => none

/-! ## Configuration (`src/backend/src/config.rs`, as read by blockchain.rs)

Only the fields `blockchain.rs` reads are modelled. -/

structure Config where
  oracle_address : String
  validator_script_hash : String
  oracle_sk : String
  oracle_pkh : String
  oracle_payment_address : String
  validator_script_ref : String
deriving DecidableEq

/-! ## The chain reader (`CardanoClient::fetch_shipments`, blockchain.rs 120-211)

HTTP I/O is embedded as an explicit world: for each query the world gives
either a network error, or a response with an HTTP status, the body text,
and the result of deserializing the body (`none` models a malformed
response body, i.e. a `serde` failure in `response.json()`). -/

structure BlockfrostTxSearch where
  tx_hash : String
deriving DecidableEq

structure BlockfrostTxInput where
  address : String
  reference_script_hash : Option String
deriving DecidableEq

structure BlockfrostTxOutput where
  address : String
  output_index : Nat
  inline_datum : Option String
deriving DecidableEq

structure BlockfrostTx where
  inputs : List BlockfrostTxInput
  outputs : List BlockfrostTxOutput
deriving DecidableEq

inductive HttpResult (α : Type) where
  | netErr (msg : String)
  | resp (status : Nat) (parsed : Option α) (rawBody : String)

/-- The two query endpoints `fetch_shipments` exercises. -/
structure ChainWorld where
  txsQuery : HttpResult (List BlockfrostTxSearch)
  utxoQuery : String → HttpResult BlockfrostTx

/-- `reqwest::StatusCode::is_success`: 200-299. -/
def isSuccessStatus (status : Nat) : Bool := 200 ≤ status ∧ status ≤ 299

namespace CardanoClient

/-- Model of `CardanoClient::map_tx_to_tracking_utxo` (blockchain.rs
120-175): query `/txs/{tx_hash}/utxos`; on a network error, a non-success
status, or a malformed body return `none`; require some input at the
oracle address whose reference script hash is the validator script hash;
take the first output at the oracle address carrying an inline datum and
decode it. (`utxo.inline_datum.as_ref().unwrap()` is guarded by the find
predicate, so `getD ""` is equivalent to it here.) -/
def map_tx_to_tracking_utxo (world : ChainWorld) (config : Config)
    (tx_hash : String) : Option TrackingUTxO :=
  match world.utxoQuery tx_hash with
  | .netErr _ => none
  | .resp status parsed _ =>
    if !(isSuccessStatus status) then none
    else
      match parsed with
      | none => none
      | some tx =>
        if !(tx.inputs.any fun input =>
              input.address == config.oracle_address &&
              input.reference_script_hash == some config.validator_script_hash) then
          none
        else
          match tx.outputs.find? (fun output =>
              output.address == config.oracle_address && output.inline_datum.isSome) with
          | none => none
          | some utxo =>
            match TrackingDatum.from_cbor (utxo.inline_datum.getD "") with
            | none => none
            | some datum => some ⟨tx_hash, utxo.output_index, datum⟩

/-- Model of `CardanoClient::fetch_shipments` (blockchain.rs 177-211):
query `/addresses/{oracle}/transactions`; a network error, a non-success
status, or a malformed body of this query is an `Err`; otherwise map each
returned transaction hash through `map_tx_to_tracking_utxo` and keep the
`some` results (`join_all` preserves order, then `filter_map`). -/
def fetch_shipments (world : ChainWorld) (config : Config) :
    Except String (List TrackingUTxO) :=
  match world.txsQuery with
  | .netErr _ => .error "Failed to query oracle transactions from Blockfrost"
  | .resp status parsed rawBody =>
    if !(isSuccessStatus status) then
      .error ("Blockfrost query failed (status " ++ toString status ++ "): " ++ rawBody)
    else
      match parsed with
      | none => .error "Failed to parse Blockfrost transactions response"
      | some txs =>
        .ok (txs.filterMap fun tx_search =>
          map_tx_to_tracking_utxo world config tx_search.tx_hash)

end CardanoClient

/-! ## An abstract chain history behind the Blockfrost endpoints

Used to relate what `fetch_shipments` returns to on-chain spent-ness. -/

structure ChainTxInput where
  /-- The output reference this input points at. -/
  source : String × Nat
  address : String
  reference_script_hash : Option String
  /-- Reference inputs are listed by the indexer but do not consume. -/
  isReference : Bool
deriving DecidableEq

structure ChainTx where
  hash : String
  inputs : List ChainTxInput
  outputs : List BlockfrostTxOutput
deriving DecidableEq

def touchesAddress (addr : String) (tx : ChainTx) : Bool :=
  tx.inputs.any (fun i => i.address == addr) || tx.outputs.any (fun o => o.address == addr)

/-- The output reference `ref` has been consumed by some transaction of the
chain (spent by a non-reference input). -/
def consumed (chain : List ChainTx) (ref : String × Nat) : Bool :=
  chain.any fun tx => tx.inputs.any fun i => !i.isReference && i.source == ref

/-- The Blockfrost view of a chain history:
`/addresses/{addr}/transactions` lists every historical transaction that
touches the address, and `/txs/{h}/utxos` returns the inputs and outputs
of transaction `h` — whether or not its outputs have since been spent. -/
def worldOfChain (chain : List ChainTx) (addr : String) : ChainWorld where
  txsQuery :=
    .resp 200 (some ((chain.filter (touchesAddress addr)).map fun tx => ⟨tx.hash⟩)) ""
  utxoQuery h :=
    match chain.find? (fun tx => tx.hash == h) with
    | some tx =>
      .resp 200 (some ⟨tx.inputs.map (fun i => ⟨i.address, i.reference_script_hash⟩), tx.outputs⟩) ""
    | none => .resp 404 none "not found"

/-! ## Close-shipment parameters (`CardanoClient::submit_shipment`, blockchain.rs 213-236) -/

structure CloseShipmentParams where
  oracle : String
  oracle_pkh : String
  outbox : String
  p_status : String
  p_timestamp : String
  p_utxo_ref : String
  payment : String
  validator_script_ref : String
deriving DecidableEq

namespace CardanoClient

/-- The parameter set `submit_shipment` passes to the external
transaction builder (blockchain.rs 219-228). The ambient clock read
`chrono::Utc::now().timestamp() as u64` is embedded as the explicit
argument `now`, and the pallas `Address::to_string` bech32 rendering of
the outbox address as the explicit function `addrToText`. -/
def submit_shipment_params (addrToText : Address → String) (config : Config)
    (tracking : TrackingUTxO) (status : String) (now : Nat) : CloseShipmentParams :=
  { oracle := config.oracle_address
    oracle_pkh := config.oracle_pkh
    outbox := addrToText tracking.datum.outbox_address
    p_status := hexEncodeString status
    p_timestamp := toString now
    p_utxo_ref := tracking.tx_hash ++ "#" ++ toString tracking.tx_index
    payment := config.oracle_payment_address
    validator_script_ref := config.validator_script_ref }

/-- Modelled from the spec: `close_shipment(record, status, at_time)` of
§4.5 — the injectable-timestamp close operation. Its implementation
(`prepare_close_shipment_at` / `submit_shipment_at`, exercised by
`tests/integration.rs`) is not under `src/`; per the spec it builds the
same parameter set as `submit_shipment` but with the supplied
`at_time` (unsigned integer seconds) rendered as the decimal timestamp
text, instead of the current clock. -/
def close_shipment_at_params (addrToText : Address → String) (config : Config)
    (tracking : TrackingUTxO) (status : String) (at_time : Nat) : CloseShipmentParams :=
  submit_shipment_params addrToText config tracking status at_time

end CardanoClient

/-! ## Conway transactions and the witness signer
(`CardanoClient::sign_cbor`, blockchain.rs 238-265)

A Conway `Tx` is the CBOR array
`[transaction_body, transaction_witness_set, success, auxiliary_data]`.
The body and the auxiliary data are `KeepRaw` values: the code never
inspects them and re-emits their original bytes, so the model keeps them
as raw byte segments (it does not re-validate their internal structure).
The witness set is parsed: it is a CBOR map from small integer keys to
witness material, of which the code replaces entry 0 (the vkey witnesses)
and carries every other entry through; entries 1-7 are kept as raw value
bytes. -/

structure VKeyWitness where
  vkey : List Nat
  signature : List Nat
deriving DecidableEq

structure WitnessSet where
  vkeywitness : Option (List VKeyWitness)
  native_scriptRaw : Option (List Nat)
  bootstrap_witnessRaw : Option (List Nat)
  plutus_v1_scriptRaw : Option (List Nat)
  plutus_dataRaw : Option (List Nat)
  redeemerRaw : Option (List Nat)
  plutus_v2_scriptRaw : Option (List Nat)
  plutus_v3_scriptRaw : Option (List Nat)
deriving DecidableEq

def emptyWitnessSet : WitnessSet := ⟨none, none, none, none, none, none, none, none⟩

def vkeyWitnessFromRaw : RawCbor → Option VKeyWitness
  | .array [.bytes vk, .bytes sig] => some ⟨vk, sig⟩
  | .arrayIndef [.bytes vk, .bytes sig] => some ⟨vk, sig⟩
  | _ => none

def vkeyWitnessListFromRaw : List RawCbor → Option (List VKeyWitness)
  | [] => some []
  | v :: vs => do
    let w ← vkeyWitnessFromRaw v
    let ws ← vkeyWitnessListFromRaw vs
    pure (w :: ws)

/-- pallas `NonEmptySet<VKeyWitness>` decode: an optional tag 258 wrapping
an array of `[vkey, signature]` pairs; must be non-empty. -/
def vkeySetFromRaw (v : RawCbor) : Option (List VKeyWitness) :=
  let inner :=
    match v with
    | .tag 258 x => x
    | x => x
  match inner with
  | .array items => if items.isEmpty then none else vkeyWitnessListFromRaw items
  | .arrayIndef items => if items.isEmpty then none else vkeyWitnessListFromRaw items
  | _ => none

/-- Record one decoded witness-set map entry. Key 0 is parsed as the vkey
witness set; keys 1-7 keep the raw value bytes of the corresponding
pallas field; unknown keys are skipped, as the `minicbor` map derive
does. -/
def wsRecordEntry (ws : WitnessSet) (key : Nat) (value : RawCbor) (raw : List Nat) :
    Option WitnessSet :=
  if key = 0 then (vkeySetFromRaw value).map fun l => { ws with vkeywitness := some l }
  else if key = 1 then some { ws with native_scriptRaw := some raw }
  else if key = 2 then some { ws with bootstrap_witnessRaw := some raw }
  else if key = 3 then some { ws with plutus_v1_scriptRaw := some raw }
  else if key = 4 then some { ws with plutus_dataRaw := some raw }
  else if key = 5 then some { ws with redeemerRaw := some raw }
  else if key = 6 then some { ws with plutus_v2_scriptRaw := some raw }
  else if key = 7 then some { ws with plutus_v3_scriptRaw := some raw }
  else some ws

def wsEntriesDef : Nat → Nat → WitnessSet → List Nat → Option (WitnessSet × Nat)
  | 0, _, _, _ => none
  | _ + 1, 0, ws, _ => some (ws, 0)
  | fuel + 1, n + 1, ws, bs => do
    let (kv, k1) ← parseItem (cborFuel bs) bs
    match kv with
    | .uint key => do
      let rest := bs.drop k1
      let (vv, k2) ← parseItem (cborFuel rest) rest
      let ws2 ← wsRecordEntry ws key vv (rest.take k2)
      let (ws3, k3) ← wsEntriesDef fuel n ws2 (rest.drop k2)
      pure (ws3, k1 + k2 + k3)
    | _ => none

def wsEntriesIndef : Nat → WitnessSet → List Nat → Option (WitnessSet × Nat)
  | 0, _, _ => none
  | _ + 1, ws, 255 :: _ => some (ws, 1)
  | fuel + 1, ws, bs => do
    let (kv, k1) ← parseItem (cborFuel bs) bs
    match kv with
    | .uint key => do
      let rest := bs.drop k1
      let (vv, k2) ← parseItem (cborFuel rest) rest
      let ws2 ← wsRecordEntry ws key vv (rest.take k2)
      let (ws3, k3) ← wsEntriesIndef fuel ws2 (rest.drop k2)
      pure (ws3, k1 + k2 + k3)
    | _ => none

/-- Parse a Conway witness set (a CBOR map) from the front of `bs`,
returning it and the number of bytes consumed. -/
def parseWitnessSet (bs : List Nat) : Option (WitnessSet × Nat) :=
  match bs with
  | [] => none
  | b :: r =>
    if b / 32 = 5 then
      if b % 32 = 31 then do
        let (ws, k) ← wsEntriesIndef (r.length + 1) emptyWitnessSet r
        pure (ws, 1 + k)
      else do
        let (n, k) ← readArg (b % 32) r
        let (ws, k2) ← wsEntriesDef (r.length + 1) n emptyWitnessSet (r.drop k)
        pure (ws, 1 + k + k2)
    else none

/-- A CBOR head with minimal-length argument encoding, as `minicbor`
writes it. -/
def encHead (major : Nat) (n : Nat) : List Nat :=
  if n < 24 then [major * 32 + n]
  else if n < 256 then [major * 32 + 24, n]
  else if n < 65536 then [major * 32 + 25, n / 256, n % 256]
  else if n < 4294967296 then
    [major * 32 + 26, n / 16777216 % 256, n / 65536 % 256, n / 256 % 256, n % 256]
  else
    [major * 32 + 27,
     n / 72057594037927936 % 256, n / 281474976710656 % 256,
     n / 1099511627776 % 256, n / 4294967296 % 256,
     n / 16777216 % 256, n / 65536 % 256, n / 256 % 256, n % 256]

def encBytes (bs : List Nat) : List Nat := encHead 2 bs.length ++ bs

def encodeVKeyWitness (w : VKeyWitness) : List Nat :=
  encHead 4 2 ++ encBytes w.vkey ++ encBytes w.signature

/-- pallas encodes a `NonEmptySet` as tag 258 over a definite array. -/
def encodeVKeySet (l : List VKeyWitness) : List Nat :=
  encHead 6 258 ++ encHead 4 l.length ++ (l.map encodeVKeyWitness).flatten

def wsEntryList (ws : WitnessSet) : List (Nat × List Nat) :=
  (match ws.vkeywitness with | some l => [(0, encodeVKeySet l)] | none => []) ++
  (match ws.native_scriptRaw with | some r => [(1, r)] | none => []) ++
  (match ws.bootstrap_witnessRaw with | some r => [(2, r)] | none => []) ++
  (match ws.plutus_v1_scriptRaw with | some r => [(3, r)] | none => []) ++
  (match ws.plutus_dataRaw with | some r => [(4, r)] | none => []) ++
  (match ws.redeemerRaw with | some r => [(5, r)] | none => []) ++
  (match ws.plutus_v2_scriptRaw with | some r => [(6, r)] | none => []) ++
  (match ws.plutus_v3_scriptRaw with | some r => [(7, r)] | none => [])

/-- Re-serialize a witness set: a definite-length CBOR map whose present
entries appear in field order, as the `minicbor` derive writes them. -/
def encodeWitnessSet (ws : WitnessSet) : List Nat :=
  let entries := wsEntryList ws
  encHead 5 entries.length ++ (entries.map fun e => encHead 0 e.1 ++ e.2).flatten

/-- A decoded Conway transaction. `bodyRaw` and `auxRaw` are the raw byte
segments of the `KeepRaw` body and auxiliary-data items;
`witnessSetRaw` is the raw segment the witness set was decoded from
(dropped by the code when it rebuilds the witness set); `trailing` is
whatever follows the four-element array (ignored by `minicbor`'s
decoder and not re-emitted by its encoder). -/
structure ConwayTx where
  bodyRaw : List Nat
  witnessSet : WitnessSet
  witnessSetRaw : Option (List Nat)
  success : Bool
  auxRaw : List Nat
  trailing : List Nat
deriving DecidableEq

/-- Parse a Conway `Tx`: the definite four-element array
`[body, witness_set, success, auxiliary_data]`. -/
def decodeConwayTx (bs : List Nat) : Option ConwayTx :=
  match bs with
  | 132 :: r1 =>
    match parseItem (cborFuel r1) r1 with
    | none => none
    | some (_, k1) =>
      match parseWitnessSet (r1.drop k1) with
      | none => none
      | some (ws, k2) =>
        match (r1.drop k1).drop k2 with
        | 244 :: r4 =>
          match parseItem (cborFuel r4) r4 with
          | none => none
          | some (_, k3) =>
            some ⟨r1.take k1, ws, some ((r1.drop k1).take k2), false, r4.take k3, r4.drop k3⟩
        | 245 :: r4 =>
          match parseItem (cborFuel r4) r4 with
          | none => none
          | some (_, k3) =>
            some ⟨r1.take k1, ws, some ((r1.drop k1).take k2), true, r4.take k3, r4.drop k3⟩
        | _ => none
  | _ => none

/-- Re-serialize a Conway `Tx` (`minicbor::to_vec`): `KeepRaw` segments
are emitted verbatim; a witness set without a raw segment is re-encoded
structurally. -/
def encodeConwayTx (tx : ConwayTx) : List Nat :=
  132 :: (tx.bodyRaw ++
    (match tx.witnessSetRaw with
     | some raw => raw
     | none => encodeWitnessSet tx.witnessSet) ++
    (if tx.success then [245] else [244]) ++
    tx.auxRaw)

/-- pallas `MultiEraTx::decode` probes the known eras, newest first. The
Conway decoder is modelled concretely; whether the bytes decode in some
older era is abstracted by the predicate `otherProbe`. -/
inductive MultiEraTx where
  | conway (tx : ConwayTx)
  | otherEra

def decodeMultiEraTx (otherProbe : List Nat → Bool) (bs : List Nat) : Option MultiEraTx :=
  match decodeConwayTx bs with
  | some tx => some (.conway tx)
  | none => if otherProbe bs then some .otherEra else none

/-- `tx3_sdk::trp::TxEnvelope`: the unsigned transaction body (hex) and
its hash (hex) as returned by the external transaction builder. -/
structure TxEnvelope where
  tx : String
  hash : String
deriving DecidableEq

/-- Outcome of one signing attempt. A Rust `expect` failure is a `panicked`
outcome (it aborts the task; it is not an `Err` the caller receives),
while `?`-propagated failures are `err`. -/
inductive SignResult where
  | ok (bytes : List Nat)
  | err (msg : String)
  | panicked (msg : String)
deriving DecidableEq

def SignResult.isOk : SignResult → Bool
  | .ok _ => true
  | _ => false

def SignResult.isErr : SignResult → Bool
  | .err _ => true
  | _ => false

def WitnessSet.withVKey (ws : WitnessSet) (l : List VKeyWitness) : WitnessSet :=
  { ws with vkeywitness := some l }

namespace CardanoClient

/-- Model of `CardanoClient::sign_cbor` (blockchain.rs 238-265). The
ed25519 primitives are abstracted as the explicit functions `edSign`
(32-byte key and message to 64-byte signature) and `edPub` (32-byte key
to 32-byte public key); the claims under verification do not depend on
their values. `hex::decode(&envelope.hash).expect(..)`,
`hex::decode(&config.oracle_sk).expect(..)` and the 32-byte `try_into`
`expect` are panics; the body hex decode, the multi-era decode and the
era check are `?`/`ok_or` error returns. The witness set is replaced by
the single new witness (`NonEmptySet::from_vec(vec![witness])`), its
`KeepRaw` raw segment is dropped (`KeepRaw::from`), and the whole
transaction is re-serialized. -/
def sign_cbor (edSign : List Nat → List Nat → List Nat)
    (edPub : List Nat → List Nat) (otherProbe : List Nat → Bool)
    (config : Config) (envelope : TxEnvelope) : SignResult :=
  match hexDecode envelope.hash with
  | none => .panicked "tx_hash must be hex"
  | some tx_hash_bytes =>
    match hexDecode config.oracle_sk with
    | none => .panicked "private_key must be hex"
    | some private_key_bytes =>
      if private_key_bytes.length ≠ 32 then .panicked "private_key must be 32 bytes"
      else
        let signature := edSign private_key_bytes tx_hash_bytes
        let public_key := edPub private_key_bytes
        let witness : VKeyWitness := ⟨public_key, signature⟩
        match hexDecode envelope.tx with
        | none => .err "invalid hex in envelope body"
        | some bytes =>
          match decodeMultiEraTx otherProbe bytes with
          | none => .err "could not decode transaction"
          | some .otherEra => .err "Unsupported tx era"
          | some (.conway tx) =>
            .ok (encodeConwayTx { tx with
              witnessSet := tx.witnessSet.withVKey [witness]
              witnessSetRaw := none })

end CardanoClient

/-! ## Statement-level predicates and concrete fixtures -/

/-- The shape the claims describe for a decodable datum: the (hex-decoded)
bytes are a constructor whose field 0 and field 1 are byte strings and
whose field 2 is a byte string parsing as a valid address. -/
def wellShapedDatum (s : String) : Bool :=
  match decodePlutusData (hexDecodeOrEmpty s) with
  | some (.Constr _ _ fields) =>
    (match fields[0]? with
     | some (PlutusData.BoundedBytes _) => true
     | _ => false) &&
    (match fields[1]? with
     | some (PlutusData.BoundedBytes _) => true
     | _ => false) &&
    (match fields[2]? with
     | some (PlutusData.BoundedBytes bs) => (addressFromBytes bs).isSome
     | _ => false)
  | _ => false

/-- Stand-in ed25519 signing function for concrete evaluations (the claims
do not depend on the signature values). -/
def edSign0 : List Nat → List Nat → List Nat := fun _ _ => List.replicate 64 7

def edPub0 : List Nat → List Nat := fun _ => List.replicate 32 3

def probeTrue : List Nat → Bool := fun _ => true

def probeFalse : List Nat → Bool := fun _ => false

def cfg0 : Config :=
  ⟨"addr_test1oracle", "vh0", String.mk (List.replicate 64 'a'),
   "pkh0", "addr_test1payment", "sref#1"⟩

/-- Hex of a valid tracking datum: constructor 0 with byte fields
`"shippo"`, `"SHIPPO_DELIVERED"`, and a 29-byte enterprise address. -/
def datumHex0 : String :=
  "d879834673686970706f5053484950504f5f44454c495645524544581d600102030405060708090a0b0c0d0e0f101112131415161718191a1b1c"

def addrPayload0 : List Nat := (List.range 28).map (· + 1)

def datum0 : TrackingDatum := ⟨"shippo", "SHIPPO_DELIVERED", .shelley 96 addrPayload0⟩

def txGood0 : BlockfrostTx :=
  ⟨[⟨"addr_test1oracle", some "vh0"⟩], [⟨"addr_test1oracle", 0, some datumHex0⟩]⟩

/-- A world in which the top-level transactions query succeeds with two
transactions, the per-transaction query for `"a"` fails with a network
error, and the one for `"b"` succeeds with a decodable record. -/
def world0 : ChainWorld where
  txsQuery := .resp 200 (some [⟨"a"⟩, ⟨"b"⟩]) ""
  utxoQuery h :=
    if h = "a" then .netErr "connection timed out"
    else if h = "b" then .resp 200 (some txGood0) ""
    else .resp 404 none "not found"

/-- `t1` creates a tracking record at the oracle address (its qualifying
input carries the validator reference script); `t2` is a later closing
transaction that consumes `t1#0`. -/
def chainT1 : ChainTx :=
  ⟨"t1", [⟨("sref", 0), "addr_test1oracle", some "vh0", true⟩],
   [⟨"addr_test1oracle", 0, some datumHex0⟩]⟩

def chainT2 : ChainTx :=
  ⟨"t2", [⟨("t1", 0), "addr_test1oracle", none, false⟩],
   [⟨"addr_test1outbox", 0, none⟩]⟩

def chain0 : List ChainTx := [chainT1, chainT2]

/-- A minimal Conway transaction: empty map body, empty witness set,
`success = true`, null auxiliary data. -/
def envConway0 : TxEnvelope := ⟨"84a0a0f5f6", String.mk (List.replicate 64 '0')⟩

def envBadHash0 : TxEnvelope := ⟨"84a0a0f5f6", "zz"⟩

def envOldEra0 : TxEnvelope := ⟨"80", String.mk (List.replicate 64 '0')⟩

def conwayTx0 : ConwayTx := ⟨[160], emptyWitnessSet, some [160], true, [246], []⟩

/-! # Theorems -/

set_option maxRecDepth 10000

/-- C6: `TrackingDatum::from_cbor` is total by construction in this model
(a function into `Option`, with no panic outcome anywhere in its call
graph), and on any input that is not valid hex the `unwrap_or_default`
degrades the bytes to the empty byte string — which is not a CBOR item —
so the decode resolves to `none` rather than raising. -/
theorem from_cbor_invalid_hex_degrades (s : String) (h : hexDecode s = none) :
    hexDecodeOrEmpty s = [] ∧ TrackingDatum.from_cbor s = none := by
  have he : hexDecodeOrEmpty s = [] := by simp [hexDecodeOrEmpty, h]
  refine ⟨he, ?_⟩
  unfold TrackingDatum.from_cbor
  rw [he]
  rfl

/-- Witness for C6: `"zz"` is not valid hex; decoding degrades to empty
bytes and yields `none`. -/
theorem from_cbor_invalid_hex_degrades_witness :
    hexDecodeOrEmpty "zz" = [] ∧ TrackingDatum.from_cbor "zz" = none :=
  from_cbor_invalid_hex_degrades "zz" (by decide)

/-- C4: the spec-modelled `close_shipment(record, status, at_time)` takes
the time as an explicit argument: the parameter set it hands the
transaction builder carries exactly the supplied `at_time` rendered as
decimal text (never an ambient clock — the model has no clock input),
and is otherwise the same parameter set `submit_shipment` builds. -/
theorem close_shipment_at_params_time_injectable
    (addrToText : Address → String) (config : Config) (tracking : TrackingUTxO)
    (status : String) (at_time : Nat) :
    (CardanoClient.close_shipment_at_params addrToText config tracking status at_time).p_timestamp
        = toString at_time ∧
    (CardanoClient.close_shipment_at_params addrToText config tracking status 1771090081).p_timestamp
        = "1771090081" ∧
    CardanoClient.close_shipment_at_params addrToText config tracking status at_time
        = CardanoClient.submit_shipment_params addrToText config tracking status at_time :=
  ⟨rfl, rfl, rfl⟩

/-- C8: for every record and status, the parameter set built for the
closing transaction carries `p_status` equal to the hex encoding of the
literal status bytes (for `"DELIVERED"`: `"44454c495645524544"`) and
`p_utxo_ref` equal to `"<tx_hash>#<tx_index>"`. -/
theorem submit_shipment_params_status_utxo_ref
    (addrToText : Address → String) (config : Config) (tracking : TrackingUTxO)
    (status : String) (now : Nat) :
    (CardanoClient.submit_shipment_params addrToText config tracking status now).p_status
        = hexEncodeString status ∧
    (CardanoClient.submit_shipment_params addrToText config tracking "DELIVERED" now).p_status
        = "44454c495645524544" ∧
    (CardanoClient.submit_shipment_params addrToText config tracking status now).p_utxo_ref
        = tracking.tx_hash ++ "#" ++ toString tracking.tx_index :=
  ⟨rfl, rfl, rfl⟩

/-- C9: an envelope whose body is not a Conway-era transaction but does
decode in some older era makes `sign_cbor` fail with the explicit
`"Unsupported tx era"` error and produce no output bytes (the model
never attempts an era coercion: no conversion function exists in its
call graph). -/
theorem sign_cbor_unsupported_era
    (edSign : List Nat → List Nat → List Nat) (edPub : List Nat → List Nat)
    (otherProbe : List Nat → Bool) (config : Config) (envelope : TxEnvelope)
    (hb sk bytes : List Nat)
    (h1 : hexDecode envelope.hash = some hb)
    (h2 : hexDecode config.oracle_sk = some sk)
    (h3 : sk.length = 32)
    (h4 : hexDecode envelope.tx = some bytes)
    (h5 : decodeConwayTx bytes = none)
    (h6 : otherProbe bytes = true) :
    CardanoClient.sign_cbor edSign edPub otherProbe config envelope = .err "Unsupported tx era" := by
  unfold CardanoClient.sign_cbor
  rw [h1, h2, h4]
  simp [h3, decodeMultiEraTx, h5, h6]

/-- Witness for C9: a single-byte CBOR array `0x80` is not a Conway
transaction; with an other-era probe accepting it, signing fails with
exactly the unsupported-era error. -/
theorem sign_cbor_unsupported_era_witness :
    CardanoClient.sign_cbor edSign0 edPub0 probeTrue cfg0 envOldEra0 = .err "Unsupported tx era" :=
  sign_cbor_unsupported_era edSign0 edPub0 probeTrue cfg0 envOldEra0
    (List.replicate 32 0) (List.replicate 32 170) [128]
    (by decide) (by decide) (by decide) (by decide) (by decide) (by decide)

/-- C5: any hex input whose bytes are not a constructor with byte-string
fields 0 and 1 and an address-parsing byte-string field 2 decodes to
`none`; since `TrackingDatum.from_cbor` returns a complete record or
`none`, no partially populated record is ever produced. -/
theorem from_cbor_none_of_ill_shaped (s : String) (h : wellShapedDatum s = false) :
    TrackingDatum.from_cbor s = none := by
  unfold wellShapedDatum at h
  unfold TrackingDatum.from_cbor
  cases hd : decodePlutusData (hexDecodeOrEmpty s) with
  | none => rfl
  | some d =>
    rw [hd] at h
    cases d with
    | Constr t a fields =>
      dsimp only
      split
      next c tn addr hc htn haddr =>
        exfalso
        apply absurd h
        simp only [Bool.not_eq_false, Bool.and_eq_true]
        refine ⟨⟨?_, ?_⟩, ?_⟩
        · cases hf : fields[0]? with
          | none => simp [hf] at hc
          | some p0 => cases p0 <;> simp [hf] at hc ⊢
        · cases hf : fields[1]? with
          | none => simp [hf] at htn
          | some p1 => cases p1 <;> simp [hf] at htn ⊢
        · cases hf : fields[2]? with
          | none => simp [hf] at haddr
          | some p2 =>
            (cases p2 <;> simp [hf] at haddr ⊢); simp [haddr]
      next => rfl
    | MapD ps => rfl
    | BigIntD v => rfl
    | BigUInt b => rfl
    | BigNInt b => rfl
    | BoundedBytes b => rfl
    | ArrayD items => rfl

/-- Witness for C5: a constructor with only two fields is ill-shaped and
decodes to `none` (`d87982404100` is constructor 0 with two byte fields). -/
theorem from_cbor_none_of_ill_shaped_witness :
    TrackingDatum.from_cbor "d87982404100" = none :=
  from_cbor_none_of_ill_shaped "d87982404100" (by decide)

/-- C1 (amended): only a failure of the top-level
`/addresses/{oracle}/transactions` query (network error, non-success
status, malformed body) is fatal for `fetch_shipments` and surfaced as an
error; a failure of a per-transaction `/txs/{hash}/utxos` query is
silently converted to "no record" and drops just that transaction from
the result list. -/
theorem fetch_shipments_failure_policy (world : ChainWorld) (config : Config) :
    (∀ m, world.txsQuery = .netErr m →
        CardanoClient.fetch_shipments world config =
          .error "Failed to query oracle transactions from Blockfrost") ∧
    (∀ status parsed raw, world.txsQuery = .resp status parsed raw →
        isSuccessStatus status = false →
        CardanoClient.fetch_shipments world config =
          .error ("Blockfrost query failed (status " ++ toString status ++ "): " ++ raw)) ∧
    (∀ status raw, world.txsQuery = .resp status none raw → isSuccessStatus status = true →
        CardanoClient.fetch_shipments world config =
          .error "Failed to parse Blockfrost transactions response") ∧
    (∀ status txs raw, world.txsQuery = .resp status (some txs) raw →
        isSuccessStatus status = true →
        CardanoClient.fetch_shipments world config =
          .ok (txs.filterMap fun tx_search =>
            CardanoClient.map_tx_to_tracking_utxo world config tx_search.tx_hash)) ∧
    (∀ txh m, world.utxoQuery txh = .netErr m →
        CardanoClient.map_tx_to_tracking_utxo world config txh = none) := by
  refine ⟨?_, ?_, ?_, ?_, ?_⟩
  · intro m hq
    unfold CardanoClient.fetch_shipments
    rw [hq]
  · intro status parsed raw hq hs
    unfold CardanoClient.fetch_shipments
    rw [hq]
    simp [hs]
  · intro status raw hq hs
    unfold CardanoClient.fetch_shipments
    rw [hq]
    simp [hs]
  · intro status txs raw hq hs
    unfold CardanoClient.fetch_shipments
    rw [hq]
    simp [hs]
  · intro txh m hq
    unfold CardanoClient.map_tx_to_tracking_utxo
    rw [hq]

/-- Witness for the amended C1, at a concrete world: the top-level query of
`world0` succeeds, so the fetch succeeds even though a per-transaction
query inside it failed. -/
theorem fetch_shipments_failure_policy_witness :
    CardanoClient.fetch_shipments world0 cfg0 =
      .ok ([(⟨"a"⟩ : BlockfrostTxSearch), ⟨"b"⟩].filterMap fun tx_search =>
        CardanoClient.map_tx_to_tracking_utxo world0 cfg0 tx_search.tx_hash) :=
  (fetch_shipments_failure_policy world0 cfg0).2.2.2.1 200 [⟨"a"⟩, ⟨"b"⟩] "" rfl (by decide)

/-- Counterexample to C1 as stated: in `world0` the per-transaction query
for `"a"` fails with a network error, yet `fetch_shipments` does not
surface any error — it succeeds and returns only the record of `"b"`,
a result list shorter than the transaction list it started from. -/
theorem fetch_shipments_recovers_query_failure_cex :
    world0.utxoQuery "a" = .netErr "connection timed out" ∧
    CardanoClient.fetch_shipments world0 cfg0 = .ok [⟨"b", 0, datum0⟩] :=
  ⟨rfl, by rfl⟩

/-- C2 (code bug): `fetch_shipments` walks the full historical transaction
list of the oracle address and never checks that the record's output is
still unspent: in `chain0` the closing transaction `t2` has already
consumed `t1#0`, yet the fetch still returns the record at `t1#0`. -/
theorem fetch_shipments_returns_consumed_output :
    CardanoClient.fetch_shipments (worldOfChain chain0 "addr_test1oracle") cfg0
      = .ok [⟨"t1", 0, datum0⟩] ∧
    consumed chain0 ("t1", 0) = true :=
  ⟨by rfl, by rfl⟩

/-- C10: `map_tx_to_tracking_utxo` yields at most one record per ledger
transaction (its result is an `Option`), and `some` exactly when the
per-transaction query succeeded, some input of the transaction sits at
the oracle address and carries the validator reference script hash, and
the *first* output at the oracle address with an inline datum (the
`find?`) decodes; the record takes that output's index — any later
datum-bearing outputs of the same transaction play no role. -/
theorem map_tx_to_tracking_utxo_characterization
    (world : ChainWorld) (config : Config) (txh : String) (u : TrackingUTxO) :
    CardanoClient.map_tx_to_tracking_utxo world config txh = some u ↔
      ∃ status tx raw,
        world.utxoQuery txh = .resp status (some tx) raw ∧
        isSuccessStatus status = true ∧
        tx.inputs.any (fun input =>
          input.address == config.oracle_address &&
          input.reference_script_hash == some config.validator_script_hash) = true ∧
        ∃ o, tx.outputs.find? (fun output =>
              output.address == config.oracle_address && output.inline_datum.isSome) = some o ∧
          ∃ d, TrackingDatum.from_cbor (o.inline_datum.getD "") = some d ∧
            u = ⟨txh, o.output_index, d⟩ := by
  constructor
  · intro h
    unfold CardanoClient.map_tx_to_tracking_utxo at h
    split at h
    · exact absurd h (by simp)
    next status parsed raw hq =>
      split at h
      · exact absurd h (by simp)
      next hs =>
        split at h
        · exact absurd h (by simp)
        next _parsed tx =>
          split at h
          · exact absurd h (by simp)
          next hin =>
            split at h
            · exact absurd h (by simp)
            next _found o hfind =>
              split at h
              · exact absurd h (by simp)
              next _dec d hdec =>
                refine ⟨status, tx, raw, hq, ?_, ?_, o, hfind, d, hdec, ?_⟩
                · simpa using hs
                · simpa using hin
                · exact (Option.some.inj h).symm
  · rintro ⟨status, tx, raw, hq, hs, hin, o, hfind, d, hdec, rfl⟩
    unfold CardanoClient.map_tx_to_tracking_utxo
    rw [hq]
    simp [hs, hin, hfind, hdec]

/-- Counterexample to C3 as stated: an envelope whose hash is not valid
hex makes the signing attempt die in `expect` — a panic, not a surfaced
error result. The attempt does fail (nothing silently proceeds), but the
caller never receives an `Err`. -/
theorem sign_cbor_bad_hash_panics_cex :
    CardanoClient.sign_cbor edSign0 edPub0 probeFalse cfg0 envBadHash0
        = .panicked "tx_hash must be hex" ∧
    (CardanoClient.sign_cbor edSign0 edPub0 probeFalse cfg0 envBadHash0).isErr = false :=
  ⟨rfl, rfl⟩

/-- C3 (amended): a malformed signing input is always fatal for that one
attempt and is never silently ignored or retried — but the failure
mechanism differs: a non-hex envelope hash, a non-hex signing key, or a
key of the wrong length aborts with a panic (`expect`), while a
malformed envelope body (bad hex, or bytes that decode in no era) is
returned as an error result; signing succeeds only when every one of
those inputs is well-formed. -/
theorem sign_cbor_malformed_inputs_fatal
    (edSign : List Nat → List Nat → List Nat) (edPub : List Nat → List Nat)
    (otherProbe : List Nat → Bool) (config : Config) (envelope : TxEnvelope) :
    (hexDecode envelope.hash = none →
      CardanoClient.sign_cbor edSign edPub otherProbe config envelope
        = .panicked "tx_hash must be hex") ∧
    (∀ hb, hexDecode envelope.hash = some hb → hexDecode config.oracle_sk = none →
      CardanoClient.sign_cbor edSign edPub otherProbe config envelope
        = .panicked "private_key must be hex") ∧
    (∀ hb sk, hexDecode envelope.hash = some hb → hexDecode config.oracle_sk = some sk →
      sk.length ≠ 32 →
      CardanoClient.sign_cbor edSign edPub otherProbe config envelope
        = .panicked "private_key must be 32 bytes") ∧
    (∀ hb sk, hexDecode envelope.hash = some hb → hexDecode config.oracle_sk = some sk →
      sk.length = 32 → hexDecode envelope.tx = none →
      CardanoClient.sign_cbor edSign edPub otherProbe config envelope
        = .err "invalid hex in envelope body") ∧
    (∀ hb sk bytes, hexDecode envelope.hash = some hb → hexDecode config.oracle_sk = some sk →
      sk.length = 32 → hexDecode envelope.tx = some bytes →
      decodeMultiEraTx otherProbe bytes = none →
      CardanoClient.sign_cbor edSign edPub otherProbe config envelope
        = .err "could not decode transaction") ∧
    (∀ out, CardanoClient.sign_cbor edSign edPub otherProbe config envelope = .ok out →
      ∃ hb sk bytes tx, hexDecode envelope.hash = some hb ∧
        hexDecode config.oracle_sk = some sk ∧ sk.length = 32 ∧
        hexDecode envelope.tx = some bytes ∧ decodeConwayTx bytes = some tx) := by
  refine ⟨?_, ?_, ?_, ?_, ?_, ?_⟩
  · intro hh
    unfold CardanoClient.sign_cbor
    rw [hh]
  · intro hb hh hk
    unfold CardanoClient.sign_cbor
    rw [hh, hk]
  · intro hb sk hh hk hl
    unfold CardanoClient.sign_cbor
    rw [hh, hk]
    simp [hl]
  · intro hb sk hh hk hl ht
    unfold CardanoClient.sign_cbor
    rw [hh, hk]
    simp [hl, ht]
  · intro hb sk bytes hh hk hl ht hm
    unfold CardanoClient.sign_cbor
    rw [hh, hk]
    simp [hl, ht, hm]
  · intro out h
    unfold CardanoClient.sign_cbor at h
    cases hh : hexDecode envelope.hash with
    | none => rw [hh] at h; exact absurd h (by simp)
    | some hb =>
      rw [hh] at h
      cases hk : hexDecode config.oracle_sk with
      | none => rw [hk] at h; exact absurd h (by simp)
      | some sk =>
        rw [hk] at h
        by_cases hl : sk.length = 32
        · cases ht : hexDecode envelope.tx with
          | none => simp [ht, hl] at h
          | some bytes =>
            cases hm : decodeMultiEraTx otherProbe bytes with
            | none => simp [ht, hm, hl] at h
            | some m =>
              cases m with
              | otherEra => simp [ht, hm, hl] at h
              | conway tx =>
                refine ⟨hb, sk, bytes, tx, rfl, rfl, hl, rfl, ?_⟩
                unfold decodeMultiEraTx at hm
                cases hc : decodeConwayTx bytes with
                | some tx2 =>
                  rw [hc] at hm
                  cases hm
                  rfl
                | none =>
                  rw [hc] at hm
                  by_cases hpb : otherProbe bytes = true
                  · simp [hpb] at hm
                  · simp [hpb] at hm
        · simp [hl] at h

/-- Witness for the amended C3: the concrete bad-hash envelope panics. -/
theorem sign_cbor_malformed_inputs_fatal_witness :
    CardanoClient.sign_cbor edSign0 edPub0 probeFalse cfg0 envBadHash0
        = .panicked "tx_hash must be hex" :=
  (sign_cbor_malformed_inputs_fatal edSign0 edPub0 probeFalse cfg0 envBadHash0).1 (by decide)

/-- Decode soundness for Conway transactions: a successful decode cuts the
input into the four-element array header, the raw body segment, the raw
witness-set segment, the success byte, the raw auxiliary-data segment
and any trailing bytes. -/
theorem decodeConwayTx_decomposition (bs : List Nat) (tx : ConwayTx)
    (h : decodeConwayTx bs = some tx) :
    ∃ wsRaw, tx.witnessSetRaw = some wsRaw ∧
      bs = 132 :: (tx.bodyRaw ++ wsRaw ++ (if tx.success then [245] else [244]) ++
        tx.auxRaw ++ tx.trailing) := by
  unfold decodeConwayTx at h
  split at h
  next r1 =>
    split at h
    · exact absurd h (by simp)
    next v1 k1 hp1 =>
      split at h
      · exact absurd h (by simp)
      next ws k2 hp2 =>
        split at h
        next r4 heq =>
          split at h
          · exact absurd h (by simp)
          next v3 k3 hp3 =>
            obtain rfl := (Option.some.inj h).symm
            refine ⟨(r1.drop k1).take k2, rfl, ?_⟩
            simp only
            conv_lhs => rw [← List.take_append_drop k1 r1,
              ← List.take_append_drop k2 (r1.drop k1), heq, ← List.take_append_drop k3 r4]
            simp
        next r4 heq =>
          split at h
          · exact absurd h (by simp)
          next v3 k3 hp3 =>
            obtain rfl := (Option.some.inj h).symm
            refine ⟨(r1.drop k1).take k2, rfl, ?_⟩
            simp only
            conv_lhs => rw [← List.take_append_drop k1 r1,
              ← List.take_append_drop k2 (r1.drop k1), heq, ← List.take_append_drop k3 r4]
            simp
        next => exact absurd h (by simp)
  next => exact absurd h (by simp)

/-- C7: for a well-formed supported-era envelope (valid hex hash, 32-byte
key, body hex decoding as a Conway transaction with no trailing bytes),
the signed transaction differs from the input only in its witness-set
segment: the body bytes, the success byte and the auxiliary-data bytes
are re-emitted verbatim, and the witness set becomes the encoding of the
original witness set with the single `{public_key, signature}` witness
installed as the sole vkey-witness entry (replacing, not appending). -/
theorem sign_cbor_frame
    (edSign : List Nat → List Nat → List Nat) (edPub : List Nat → List Nat)
    (otherProbe : List Nat → Bool) (config : Config) (envelope : TxEnvelope)
    (hb sk bytes : List Nat) (tx : ConwayTx)
    (h1 : hexDecode envelope.hash = some hb)
    (h2 : hexDecode config.oracle_sk = some sk)
    (h3 : sk.length = 32)
    (h4 : hexDecode envelope.tx = some bytes)
    (h5 : decodeConwayTx bytes = some tx)
    (h6 : tx.trailing = []) :
    ∃ wsRaw, tx.witnessSetRaw = some wsRaw ∧
      bytes = 132 :: (tx.bodyRaw ++ wsRaw ++ (if tx.success then [245] else [244]) ++ tx.auxRaw) ∧
      CardanoClient.sign_cbor edSign edPub otherProbe config envelope =
        .ok (132 :: (tx.bodyRaw ++
          encodeWitnessSet (tx.witnessSet.withVKey [⟨edPub sk, edSign sk hb⟩]) ++
          (if tx.success then [245] else [244]) ++ tx.auxRaw)) ∧
      (tx.witnessSet.withVKey [⟨edPub sk, edSign sk hb⟩]).vkeywitness
        = some [⟨edPub sk, edSign sk hb⟩] := by
  obtain ⟨wsRaw, hws, hdecomp⟩ := decodeConwayTx_decomposition bytes tx h5
  refine ⟨wsRaw, hws, ?_, ?_, rfl⟩
  · rw [hdecomp, h6]
    simp
  · unfold CardanoClient.sign_cbor
    rw [h1, h2, h4]
    simp [h3, decodeMultiEraTx, h5, encodeConwayTx]

/-- Witness for C7: signing the concrete minimal Conway transaction
`84a0a0f5f6` installs the single witness and keeps all other bytes. -/
theorem sign_cbor_frame_witness :
    CardanoClient.sign_cbor edSign0 edPub0 probeFalse cfg0 envConway0 =
      .ok (132 :: (conwayTx0.bodyRaw ++
        encodeWitnessSet (conwayTx0.witnessSet.withVKey
          [⟨edPub0 (List.replicate 32 170),
            edSign0 (List.replicate 32 170) (List.replicate 32 0)⟩]) ++
        (if conwayTx0.success then [245] else [244]) ++ conwayTx0.auxRaw)) := by
  obtain ⟨wsRaw, hws, hdec, hsig, hsole⟩ :=
    sign_cbor_frame edSign0 edPub0 probeFalse cfg0 envConway0
      (List.replicate 32 0) (List.replicate 32 170) [132, 160, 160, 245, 246] conwayTx0
      (by decide) (by decide) (by decide) (by decide) (by decide) (by decide)
  exact hsig

end ShippingOracle
